import Mathlib

/-!
Verification of the arctl deterministic transition kernel.

This file is a shallow embedding of the core of the `arctl` repository:
the temporal classifier (`src/arctl/core/chronos.py`), the state record and
the pure transition kernel (`src/arctl/core/kernel.py`).  Python floats are
modelled as rational numbers, Python ints as integers; every definition
mirrors the corresponding source function line by line.
-/

namespace Arctl

/-- Operational mode of the controller, from `src/arctl/core/states.py`
(`OperationalMode`): a closed enum of exactly four variants. -/
inductive OperationalMode where
  | STANDARD
  | EMERGENCY
  | COOLDOWN
  | FALLBACK
deriving DecidableEq, Repr

/-- Temporal classification, from `src/arctl/core/states.py` (`TimeState`). -/
inductive TimeState where
  | SYNC
  | LAG
  | GAP
deriving DecidableEq, Repr

/-- Raw per-tick metrics, from `src/arctl/core/states.py` (`RawMetrics`). -/
structure RawMetrics where
  entropy : ℚ
  divergence : ℚ
  repetition : ℚ
deriving DecidableEq, Repr

/-- Sampling directive, from `src/arctl/core/states.py` (`SamplingConfig`).
`top_p` defaults to `none` exactly as in the Python NamedTuple. -/
structure SamplingConfig where
  temperature : ℚ
  top_p : Option ℚ := none
deriving DecidableEq, Repr

/-- Time thresholds, from `src/arctl/core/kernel.py` (`TimeConfig`),
with the documented defaults 0.01 / 0.1 / 5.0. -/
structure TimeConfig where
  min_step_interval : ℚ := 1/100
  max_step_interval : ℚ := 1/10
  deadlock_timeout : ℚ := 5
deriving DecidableEq, Repr

/-- Policy parameters, from `src/arctl/core/kernel.py` (`PolicyConfig`),
with the documented defaults. -/
structure PolicyConfig where
  max_energy : ℤ := 10
  emergency_cost : ℤ := 3
  recharge_on_cooldown : ℤ := 1
  reset_recovery_amount : ℤ := 1
  smoothing_alpha : ℚ := 3/10
  repetition_threshold : ℚ := 3/5
  cooldown_duration : ℚ := 2
  temp_standard : ℚ := 7/10
  temp_emergency : ℚ := 6/5
  temp_cooldown : ℚ := 1/2
  temp_fallback : ℚ := 1/10
deriving DecidableEq, Repr

/-- Whole configuration bundle, from `src/arctl/core/kernel.py`
(`ControllerConfig`). -/
structure ControllerConfig where
  time : TimeConfig := {}
  policy : PolicyConfig := {}
deriving DecidableEq, Repr

/-- Rendering of a timestamp as a calendar string.  In the source this is
`datetime.fromtimestamp(current_ts).strftime("%Y-%m-%d %H:%M")`
(`src/arctl/core/chronos.py`, line 89), a library call whose exact calendar
arithmetic is outside the repository; here it is modelled by an explicit
rendering of the rational timestamp.  No claim depends on its digits, only
on the note being non-empty, which is forced by the fixed prefix below. -/
def formatDate (ts : ℚ) : String :=
  toString ts.num ++ "/" ++ toString ts.den

namespace Chronos

/-- Temporal classifier, from `src/arctl/core/chronos.py` (`Chronos.sync`).
Classifies `delta = current_ts - prev_ts` into SYNC / LAG / GAP and builds the
context note.  `int(delta/60)` is Python truncating conversion; for the
non-negative deltas the kernel produces it coincides with the floor used
here (the value only ever appears inside the note string). -/
def sync (prev_ts current_ts : ℚ) : TimeState × String :=
  let delta := current_ts - prev_ts
  let state :=
    if delta < 60 then TimeState.SYNC
    else if delta < 86400 then TimeState.LAG
    else TimeState.GAP
  let current_date := formatDate current_ts
  let note :=
    if state = TimeState.SYNC then ""
    else
      "[SYSTEM]: TEMPORAL SYNC.\n" ++
      "Previous Interaction: " ++ toString ⌊delta / 60⌋ ++ " min ago.\n" ++
      "Current Reality Anchor: " ++ current_date ++ ".\n" ++
      "NOTE: Treat all documents/events prior to " ++ current_date ++
      " as PAST or PRESENT."
  (state, note)

end Chronos

/-- Module-level constant `_FALLBACK_CONFIG = SamplingConfig(0.1)` from
`src/arctl/core/kernel.py`, line 74. -/
def FALLBACK_CONFIG : SamplingConfig := { temperature := 1/10 }

/-- Full controller snapshot, from `src/arctl/core/kernel.py`
(`SystemState`), with the fields in source order. -/
structure SystemState where
  s_entropy : ℚ
  s_divergence : ℚ
  s_repetition : ℚ
  mode : OperationalMode
  energy : ℤ
  last_call_time : ℚ
  logical_time : ℚ
  mode_entry_time : ℚ
  pending_dt : ℚ
  time_state : TimeState
  context_note : String
  reset_used : Bool
  active_config : Option SamplingConfig
  step_performed : Bool
deriving DecidableEq, Repr

/-- Initial state constructor, from `src/arctl/core/kernel.py`
(`SystemState.initial`).  Note that the energy (10) and the emitted
temperature (0.7) are hard-coded literals in the source, not reads of a
configuration. -/
def SystemState.initial (now : ℚ) : SystemState :=
  { s_entropy := 1/2
    s_divergence := 0
    s_repetition := 0
    mode := OperationalMode.STANDARD
    energy := 10
    last_call_time := now
    logical_time := 0
    mode_entry_time := 0
    pending_dt := 0
    time_state := TimeState.SYNC
    context_note := ""
    reset_used := false
    active_config := some { temperature := 7/10 }
    step_performed := true }

/-- One kernel step, from `src/arctl/core/kernel.py` (`step`), translated
clause by clause: clock clamp, time accumulation, anti-stutter gate,
Chronos classification, conservative one-shot energy reset, metric
smoothing, FALLBACK short-circuit, the mode machine, directive selection
over the closed enum (the Python `temp_map.get` default is unreachable),
and the final energy clamp. -/
def step (raw : RawMetrics) (prev : SystemState) (absolute_now : ℚ)
    (cfg : ControllerConfig) : SystemState :=
  let now := max absolute_now prev.last_call_time
  let delta_real := now - prev.last_call_time
  let new_pending := prev.pending_dt + delta_real
  if new_pending < cfg.time.min_step_interval then
    { prev with
        last_call_time := now
        pending_dt := new_pending
        step_performed := false
        active_config := none }
  else
    let dt := min new_pending cfg.time.max_step_interval
    let remaining_dt := new_pending - dt
    let effective_logical_now := prev.logical_time + dt
    let sync := Chronos.sync prev.last_call_time now
    let time_state := sync.1
    let context_note := sync.2
    let reset : ℤ × Bool :=
      if time_state = TimeState.GAP ∧ prev.reset_used = false then
        (min (prev.energy + cfg.policy.reset_recovery_amount)
          cfg.policy.max_energy, true)
      else
        (prev.energy, prev.reset_used)
    let next_energy := reset.1
    let new_reset_used := reset.2
    let a := cfg.policy.smoothing_alpha
    let s_ent := (1 - a) * prev.s_entropy + a * raw.entropy
    let s_div := (1 - a) * prev.s_divergence + a * raw.divergence
    let s_rep := (1 - a) * prev.s_repetition + a * raw.repetition
    if prev.mode = OperationalMode.FALLBACK then
      { s_entropy := s_ent
        s_divergence := s_div
        s_repetition := s_rep
        mode := OperationalMode.FALLBACK
        energy := 0
        last_call_time := now
        logical_time := effective_logical_now
        mode_entry_time := prev.mode_entry_time
        pending_dt := remaining_dt
        time_state := time_state
        context_note := context_note
        reset_used := new_reset_used
        active_config := some FALLBACK_CONFIG
        step_performed := true }
    else
      let time_in_mode := effective_logical_now - prev.mode_entry_time
      let tr : OperationalMode × ℤ × ℚ :=
        if prev.mode = OperationalMode.EMERGENCY then
          if time_in_mode > cfg.time.deadlock_timeout then
            (OperationalMode.COOLDOWN, next_energy, effective_logical_now)
          else
            (prev.mode, next_energy, prev.mode_entry_time)
        else if prev.mode = OperationalMode.COOLDOWN then
          if time_in_mode > cfg.policy.cooldown_duration then
            (OperationalMode.STANDARD,
              min cfg.policy.max_energy
                (next_energy + cfg.policy.recharge_on_cooldown),
              effective_logical_now)
          else
            (prev.mode, next_energy, prev.mode_entry_time)
        else
          if s_rep > cfg.policy.repetition_threshold then
            if next_energy ≥ cfg.policy.emergency_cost then
              (OperationalMode.EMERGENCY,
                next_energy - cfg.policy.emergency_cost,
                effective_logical_now)
            else
              (OperationalMode.FALLBACK, next_energy, effective_logical_now)
          else
            (prev.mode, next_energy, prev.mode_entry_time)
      let next_mode := tr.1
      let next_energy2 := tr.2.1
      let next_mode_time := tr.2.2
      let temp :=
        match next_mode with
        | OperationalMode.STANDARD => cfg.policy.temp_standard
        | OperationalMode.EMERGENCY => cfg.policy.temp_emergency
        | OperationalMode.COOLDOWN => cfg.policy.temp_cooldown
        | OperationalMode.FALLBACK => cfg.policy.temp_fallback
      let config : SamplingConfig := { temperature := temp }
      let next_energy3 := max 0 (min cfg.policy.max_energy next_energy2)
      { s_entropy := s_ent
        s_divergence := s_div
        s_repetition := s_rep
        mode := next_mode
        energy := next_energy3
        last_call_time := now
        logical_time := effective_logical_now
        mode_entry_time := next_mode_time
        pending_dt := remaining_dt
        time_state := time_state
        context_note := context_note
        reset_used := new_reset_used
        active_config := some config
        step_performed := true }

/-- A state is reachable under `cfg` when it arises from some
`SystemState.initial t` by a finite sequence of `step` calls with arbitrary
raw metrics and wall-clock inputs. -/
inductive Reachable (cfg : ControllerConfig) : SystemState → Prop where
  | init (t : ℚ) : Reachable cfg (SystemState.initial t)
  | next (raw : RawMetrics) (now : ℚ) {s : SystemState} :
      Reachable cfg s → Reachable cfg (step raw s now cfg)

/-- One call input: the raw metrics and the wall-clock timestamp. -/
def StepInput := RawMetrics × ℚ

/-- Fold of `step` over a list of call inputs, starting at `s`. -/
def runFrom (cfg : ControllerConfig) (s : SystemState) :
    List StepInput → SystemState
  | [] => s
  | i :: l => runFrom cfg (step i.1 s i.2 cfg) l

/-- Per-mode temperature lookup: the `temp_map` dictionary of
`src/arctl/core/kernel.py` (lines 219-224) as an exhaustive match over the
closed enum.  The `.get` default of the Python dictionary is unreachable. -/
def modeTemp (cfg : ControllerConfig) : OperationalMode → ℚ
  | OperationalMode.STANDARD => cfg.policy.temp_standard
  | OperationalMode.EMERGENCY => cfg.policy.temp_emergency
  | OperationalMode.COOLDOWN => cfg.policy.temp_cooldown
  | OperationalMode.FALLBACK => cfg.policy.temp_fallback

/-- The default `ControllerConfig()`. -/
def cfgDefault : ControllerConfig := {}

/-- The conservative-reset condition of kernel.py line 167 for one call:
the call passes the anti-stutter gate, the clamped gap classifies as GAP,
and the one-shot flag is still unset.  This is exactly the guard of the
energy grant `next_energy = min(prev.energy + reset_recovery_amount,
max_energy)`. -/
def grantFires (cfg : ControllerConfig) (prev : SystemState)
    (i : StepInput) : Bool :=
  let now := max i.2 prev.last_call_time
  let new_pending := prev.pending_dt + (now - prev.last_call_time)
  !(decide (new_pending < cfg.time.min_step_interval)) &&
    (decide ((Chronos.sync prev.last_call_time now).1 = TimeState.GAP) &&
      !prev.reset_used)

/-- Number of calls along a trace at which the conservative energy grant of
kernel.py line 167 fires. -/
def countGrants (cfg : ControllerConfig) : SystemState → List StepInput → ℕ
  | _, [] => 0
  | s, i :: l =>
    (if grantFires cfg s i then 1 else 0) +
      countGrants cfg (step i.1 s i.2 cfg) l

/-- Default configuration with `smoothing_alpha = 1.0`, as in Scenario A. -/
def cfgScenarioA : ControllerConfig := { policy := { smoothing_alpha := 1 } }

/-- A configuration whose emergency cost exceeds the hard-coded initial
energy, so that the very first high-repetition tick enters FALLBACK. -/
def cfgLowBudget : ControllerConfig :=
  { policy := { emergency_cost := 20, smoothing_alpha := 1 } }

/-- The state entering FALLBACK on the first tick under `cfgLowBudget`:
repetition 0.9 exceeds the threshold while energy 10 < emergency_cost 20. -/
def enteringFallbackState : SystemState :=
  step { entropy := 1/2, divergence := 0, repetition := 9/10 }
    (SystemState.initial 0) 1 cfgLowBudget

/-- A configuration whose `max_energy` is below the hard-coded initial
energy of 10. -/
def cfgSmallMax : ControllerConfig := { policy := { max_energy := 5 } }

/-- The state after one ordinary one-second tick from the initial state
under the default configuration. -/
def afterOneSecondState : SystemState :=
  step { entropy := 1/2, divergence := 0, repetition := 3/10 }
    (SystemState.initial 0) 1 cfgDefault

/-- A configuration with a non-default FALLBACK temperature. -/
def cfgCustomFallbackTemp : ControllerConfig := { policy := { temp_fallback := 2 } }

/-- A state already in FALLBACK (as produced by the terminal transition and
a subsequent performed step). -/
def fallbackProbeState : SystemState :=
  { SystemState.initial 0 with mode := OperationalMode.FALLBACK, energy := 0 }

/-- One performed step from `fallbackProbeState` under
`cfgCustomFallbackTemp`. -/
def fallbackStepState : SystemState :=
  step { entropy := 1/2, divergence := 0, repetition := 1/10 }
    fallbackProbeState 1 cfgCustomFallbackTemp

/-! ### Helper lemmas about a single step -/

/-- Anti-stutter gate: when the accumulated pending time stays below
`min_step_interval`, the step is the buffered no-op of kernel.py line 153. -/
theorem step_buffered_eq (raw : RawMetrics) (prev : SystemState) (now : ℚ)
    (cfg : ControllerConfig)
    (h : prev.pending_dt + (max now prev.last_call_time - prev.last_call_time)
        < cfg.time.min_step_interval) :
    step raw prev now cfg =
      { prev with
          last_call_time := max now prev.last_call_time
          pending_dt :=
            prev.pending_dt + (max now prev.last_call_time - prev.last_call_time)
          step_performed := false
          active_config := none } := by
  simp only [step]
  rw [if_pos h]

/-- A non-empty right operand makes a string append non-empty. -/
theorem append_right_ne_empty (s t : String) (h : t.length ≠ 0) :
    s ++ t ≠ "" := by
  intro hc
  have h2 := congrArg String.length hc
  simp [String.length_append] at h2
  exact absurd h2.2 h

/-- A step from a FALLBACK state stays in FALLBACK: the buffered path keeps
the mode and the performed path takes the terminal short-circuit of
kernel.py line 180. -/
theorem step_mode_fallback (raw : RawMetrics) (prev : SystemState) (now : ℚ)
    (cfg : ControllerConfig) (h : prev.mode = OperationalMode.FALLBACK) :
    (step raw prev now cfg).mode = OperationalMode.FALLBACK := by
  simp only [step]
  split
  · exact h
  · rfl

/-- Any trace from a FALLBACK state stays in FALLBACK. -/
theorem runFrom_mode_fallback (cfg : ControllerConfig) :
    ∀ (l : List StepInput) (s : SystemState),
      s.mode = OperationalMode.FALLBACK →
      (runFrom cfg s l).mode = OperationalMode.FALLBACK
  | [], _, h => h
  | i :: l, s, h =>
    runFrom_mode_fallback cfg l _ (step_mode_fallback i.1 s i.2 cfg h)

/-- Energy of a step from a FALLBACK state: a performed step freezes energy
at 0 (kernel.py line 184), a buffered step keeps the previous energy. -/
theorem step_fallback_energy (raw : RawMetrics) (prev : SystemState)
    (now : ℚ) (cfg : ControllerConfig)
    (h : prev.mode = OperationalMode.FALLBACK) :
    ((step raw prev now cfg).step_performed = true →
      (step raw prev now cfg).energy = 0) ∧
    ((step raw prev now cfg).step_performed = false →
      (step raw prev now cfg).energy = prev.energy) := by
  simp only [step]
  split
  · simp
  · simp

/-- A step preserves non-negativity of the pending-time buffer. -/
theorem step_pending_nonneg (raw : RawMetrics) (prev : SystemState)
    (now : ℚ) (cfg : ControllerConfig) (h : 0 ≤ prev.pending_dt) :
    0 ≤ (step raw prev now cfg).pending_dt := by
  have hd : (0:ℚ) ≤ max now prev.last_call_time - prev.last_call_time :=
    sub_nonneg.mpr (le_max_right _ _)
  have hmin : min
      (prev.pending_dt + (max now prev.last_call_time - prev.last_call_time))
      cfg.time.max_step_interval ≤
      prev.pending_dt + (max now prev.last_call_time - prev.last_call_time) :=
    min_le_left _ _
  simp only [step]
  split
  · exact add_nonneg h hd
  · split
    · exact sub_nonneg.mpr hmin
    · exact sub_nonneg.mpr hmin

/-- A step keeps the energy inside `[0, max 10 max_energy]`: the buffered
path keeps it, the terminal short-circuit zeroes it, and every other path
ends in the defensive clamp of kernel.py line 227. -/
theorem step_energy_bounds (raw : RawMetrics) (prev : SystemState)
    (now : ℚ) (cfg : ControllerConfig)
    (h : 0 ≤ prev.energy ∧ prev.energy ≤ max 10 cfg.policy.max_energy) :
    0 ≤ (step raw prev now cfg).energy ∧
    (step raw prev now cfg).energy ≤ max 10 cfg.policy.max_energy := by
  simp only [step]
  split
  · exact h
  · split
    · dsimp only
      omega
    · dsimp only
      omega

/-- When the grant condition of kernel.py line 167 fires, the step sets the
one-shot flag. -/
theorem step_reset_used_of_grant (cfg : ControllerConfig) (prev : SystemState)
    (i : StepInput) (h : grantFires cfg prev i = true) :
    (step i.1 prev i.2 cfg).reset_used = true := by
  simp only [grantFires, Bool.and_eq_true, Bool.not_eq_true',
    decide_eq_false_iff_not, decide_eq_true_eq] at h
  obtain ⟨hgate, hgap, hused⟩ := h
  simp only [step]
  rw [if_neg hgate, if_pos (And.intro hgap hused)]
  split <;> rfl

/-- When the grant condition does not fire, the step leaves the one-shot
flag unchanged: the call is either buffered, or not GAP-classified, or the
flag was already set (in which case the `if` of kernel.py line 167 keeps
`prev.reset_used`). -/
theorem step_reset_used_of_not_grant (cfg : ControllerConfig)
    (prev : SystemState) (i : StepInput) (h : grantFires cfg prev i = false) :
    (step i.1 prev i.2 cfg).reset_used = prev.reset_used := by
  by_cases hb : prev.pending_dt +
      (max i.2 prev.last_call_time - prev.last_call_time) <
      cfg.time.min_step_interval
  · rw [step_buffered_eq i.1 prev i.2 cfg hb]
  · have hc : ¬ ((Chronos.sync prev.last_call_time
        (max i.2 prev.last_call_time)).1 = TimeState.GAP ∧
        prev.reset_used = false) := by
      rintro ⟨hgap, hused⟩
      have htrue : grantFires cfg prev i = true := by
        simp only [grantFires]
        simp [decide_eq_false hb, decide_eq_true hgap, hused]
      rw [h] at htrue
      cases htrue
    simp only [step]
    rw [if_neg hb, if_neg hc]
    split <;> rfl

end Arctl

namespace Arctl

/-- C6: Anti-stutter frame: when `prev.pending_dt` plus the clamped elapsed
time stays below `cfg.time.min_step_interval`, `step` returns a state
identical to `prev` except that `last_call_time` becomes the clamped `now`,
`pending_dt` becomes the accumulated value, `step_performed` is `false` and
`active_config` is absent; all other fields are unchanged. -/
theorem step_anti_stutter_frame (raw : RawMetrics) (prev : SystemState)
    (now : ℚ) (cfg : ControllerConfig)
    (h : prev.pending_dt + (max now prev.last_call_time - prev.last_call_time)
        < cfg.time.min_step_interval) :
    step raw prev now cfg =
      { prev with
          last_call_time := max now prev.last_call_time
          pending_dt :=
            prev.pending_dt + (max now prev.last_call_time - prev.last_call_time)
          step_performed := false
          active_config := none } :=
  step_buffered_eq raw prev now cfg h

/-- Witness for C6 at a concrete input: the initial state called again after
1 millisecond is buffered. -/
theorem step_anti_stutter_frame_witness :
    ((SystemState.initial 0).pending_dt +
        (max (1/1000 : ℚ) (SystemState.initial 0).last_call_time -
          (SystemState.initial 0).last_call_time) <
      cfgDefault.time.min_step_interval) ∧
    step { entropy := 1/2, divergence := 0, repetition := 1/2 }
        (SystemState.initial 0) (1/1000) cfgDefault =
      { SystemState.initial 0 with
          last_call_time := max (1/1000 : ℚ) (SystemState.initial 0).last_call_time
          pending_dt :=
            (SystemState.initial 0).pending_dt +
              (max (1/1000 : ℚ) (SystemState.initial 0).last_call_time -
                (SystemState.initial 0).last_call_time)
          step_performed := false
          active_config := none } :=
  ⟨by norm_num [SystemState.initial, cfgDefault],
    step_anti_stutter_frame _ _ _ _
      (by norm_num [SystemState.initial, cfgDefault])⟩

/-- C7: Logical-time monotonicity under clock regression: for every input
with a well-formed previous state (`pending_dt ≥ 0`) and configuration
(`max_step_interval ≥ 0`), the new `logical_time` and `last_call_time` never
decrease, and a call with `now ≤ prev.last_call_time` behaves exactly as a
call with zero elapsed time (the clamp of kernel.py line 147); `step` is a
total Lean function, so no input raises. -/
theorem step_logical_time_monotone (raw : RawMetrics) (prev : SystemState)
    (now : ℚ) (cfg : ControllerConfig)
    (h1 : 0 ≤ prev.pending_dt) (h2 : 0 ≤ cfg.time.max_step_interval) :
    prev.logical_time ≤ (step raw prev now cfg).logical_time ∧
    prev.last_call_time ≤ (step raw prev now cfg).last_call_time ∧
    (now ≤ prev.last_call_time →
      step raw prev now cfg = step raw prev prev.last_call_time cfg) := by
  have hd : (0:ℚ) ≤ max now prev.last_call_time - prev.last_call_time :=
    sub_nonneg.mpr (le_max_right _ _)
  have hp : (0:ℚ) ≤ prev.pending_dt +
      (max now prev.last_call_time - prev.last_call_time) := add_nonneg h1 hd
  have hdt : (0:ℚ) ≤ min
      (prev.pending_dt + (max now prev.last_call_time - prev.last_call_time))
      cfg.time.max_step_interval := le_min hp h2
  refine ⟨?_, ?_, ?_⟩
  · simp only [step]
    split
    · simp
    · split
      · simp only []
        linarith
      · simp only []
        linarith
  · simp only [step]
    split
    · simp only []
      exact le_max_right _ _
    · split
      · simp only []
        exact le_max_right _ _
      · simp only []
        exact le_max_right _ _
  · intro h
    simp only [step, max_eq_right h, max_self]

/-- Witness for C7 at a concrete input with a regressing clock
(`now = 3 < 5 = prev.last_call_time`). -/
theorem step_logical_time_monotone_witness :
    ((0:ℚ) ≤ (SystemState.initial 5).pending_dt ∧
      (0:ℚ) ≤ cfgDefault.time.max_step_interval) ∧
    ((SystemState.initial 5).logical_time ≤
      (step { entropy := 1/2, divergence := 0, repetition := 0 }
        (SystemState.initial 5) 3 cfgDefault).logical_time ∧
    (SystemState.initial 5).last_call_time ≤
      (step { entropy := 1/2, divergence := 0, repetition := 0 }
        (SystemState.initial 5) 3 cfgDefault).last_call_time ∧
    ((3:ℚ) ≤ (SystemState.initial 5).last_call_time →
      step { entropy := 1/2, divergence := 0, repetition := 0 }
          (SystemState.initial 5) 3 cfgDefault =
        step { entropy := 1/2, divergence := 0, repetition := 0 }
          (SystemState.initial 5) (SystemState.initial 5).last_call_time
          cfgDefault)) :=
  ⟨⟨by norm_num [SystemState.initial], by norm_num [cfgDefault]⟩,
    step_logical_time_monotone _ _ _ _
      (by norm_num [SystemState.initial]) (by norm_num [cfgDefault])⟩

/-- C8: Temporal classification: for timestamps with non-negative delta, the
classifier returns SYNC with an empty note for `delta < 60`, LAG with a
non-empty note for `60 ≤ delta < 86400`, and GAP with a non-empty note for
`delta ≥ 86400`; the boundaries are exactly as stated (60s is LAG,
86400s is GAP). -/
theorem chronos_classification (prev_ts current_ts : ℚ)
    (h : 0 ≤ current_ts - prev_ts) :
    (current_ts - prev_ts < 60 →
      Chronos.sync prev_ts current_ts = (TimeState.SYNC, "")) ∧
    (60 ≤ current_ts - prev_ts → current_ts - prev_ts < 86400 →
      (Chronos.sync prev_ts current_ts).1 = TimeState.LAG ∧
      (Chronos.sync prev_ts current_ts).2 ≠ "") ∧
    (86400 ≤ current_ts - prev_ts →
      (Chronos.sync prev_ts current_ts).1 = TimeState.GAP ∧
      (Chronos.sync prev_ts current_ts).2 ≠ "") := by
  refine ⟨?_, ?_, ?_⟩
  · intro h60
    simp only [Chronos.sync]
    rw [if_pos h60]
    simp
  · intro h60 h24
    have h60n : ¬ (current_ts - prev_ts < 60) := not_lt.mpr h60
    simp only [Chronos.sync]
    rw [if_neg h60n, if_pos h24]
    refine ⟨rfl, ?_⟩
    rw [if_neg (by decide : ¬ (TimeState.LAG = TimeState.SYNC))]
    exact append_right_ne_empty _ _ (by decide)
  · intro h24
    have h60n : ¬ (current_ts - prev_ts < 60) := not_lt.mpr (by linarith)
    have h24n : ¬ (current_ts - prev_ts < 86400) := not_lt.mpr h24
    simp only [Chronos.sync]
    rw [if_neg h60n, if_neg h24n]
    refine ⟨rfl, ?_⟩
    rw [if_neg (by decide : ¬ (TimeState.GAP = TimeState.SYNC))]
    exact append_right_ne_empty _ _ (by decide)

/-- Witness for C8 at the concrete pair (0, 30): delta 30 is non-negative
and classifies as SYNC with an empty note. -/
theorem chronos_classification_witness :
    ((0:ℚ) ≤ 30 - 0) ∧
    (((30:ℚ) - 0 < 60 → Chronos.sync 0 30 = (TimeState.SYNC, "")) ∧
    ((60:ℚ) ≤ 30 - 0 → (30:ℚ) - 0 < 86400 →
      (Chronos.sync 0 30).1 = TimeState.LAG ∧ (Chronos.sync 0 30).2 ≠ "") ∧
    ((86400:ℚ) ≤ 30 - 0 →
      (Chronos.sync 0 30).1 = TimeState.GAP ∧ (Chronos.sync 0 30).2 ≠ "")) :=
  ⟨by norm_num, chronos_classification 0 30 (by norm_num)⟩

/-- C1 (amended): FALLBACK absorption holds for the mode: once a state is
in FALLBACK every trace keeps it in FALLBACK.  For the energy, every
performed step from a FALLBACK state returns energy 0 and every buffered
anti-stutter tick leaves the energy unchanged — but the state that first
enters FALLBACK keeps its pre-transition energy, which may be non-zero, so
energy is 0 from the first performed step after entry onwards rather than
from the entering state itself. -/
theorem fallback_absorbing (cfg : ControllerConfig) (prev : SystemState)
    (h : prev.mode = OperationalMode.FALLBACK) :
    (∀ l : List StepInput,
      (runFrom cfg prev l).mode = OperationalMode.FALLBACK) ∧
    (∀ (raw : RawMetrics) (now : ℚ),
      ((step raw prev now cfg).step_performed = true →
        (step raw prev now cfg).energy = 0) ∧
      ((step raw prev now cfg).step_performed = false →
        (step raw prev now cfg).energy = prev.energy)) :=
  ⟨fun l => runFrom_mode_fallback cfg l prev h,
    fun raw now => step_fallback_energy raw prev now cfg h⟩

/-- Counterexample to C1 as stated: under `cfgLowBudget` the state reached
by one step from `SystemState.initial 0` (a reachable state) has mode
FALLBACK yet non-zero energy (it enters FALLBACK with its pre-transition
energy 10 intact), refuting the part of the claim that says every reachable
FALLBACK state, including the entering one, has energy 0. -/
theorem fallback_entering_energy_counterexample :
    Reachable cfgLowBudget enteringFallbackState ∧
    enteringFallbackState.mode = OperationalMode.FALLBACK ∧
    enteringFallbackState.energy ≠ 0 := by
  refine ⟨Reachable.next _ _ (Reachable.init 0), ?_⟩
  norm_num +decide [enteringFallbackState, step, Chronos.sync,
    SystemState.initial, cfgLowBudget]

/-- Witness for C1 at a concrete FALLBACK state. -/
theorem fallback_absorbing_witness :
    fallbackProbeState.mode = OperationalMode.FALLBACK ∧
    ((∀ l : List StepInput,
      (runFrom cfgDefault fallbackProbeState l).mode =
        OperationalMode.FALLBACK) ∧
    (∀ (raw : RawMetrics) (now : ℚ),
      ((step raw fallbackProbeState now cfgDefault).step_performed = true →
        (step raw fallbackProbeState now cfgDefault).energy = 0) ∧
      ((step raw fallbackProbeState now cfgDefault).step_performed = false →
        (step raw fallbackProbeState now cfgDefault).energy =
          fallbackProbeState.energy))) :=
  ⟨rfl, fallback_absorbing cfgDefault fallbackProbeState rfl⟩

/-- C2 (amended): every reachable state keeps its energy in
`[0, max 10 cfg.policy.max_energy]`.  When `cfg.policy.max_energy = 10`
(the default, matching the hard-coded initial energy) this is exactly the
claimed bound `[0, cfg.policy.max_energy]`; for smaller `max_energy` the
initial state itself exceeds the claimed bound, because
`SystemState.initial` hard-codes energy 10 without consulting the
configuration. -/
theorem reachable_energy_bounds (cfg : ControllerConfig) (s : SystemState)
    (h : Reachable cfg s) :
    0 ≤ s.energy ∧ s.energy ≤ max 10 cfg.policy.max_energy := by
  induction h with
  | init t =>
    refine ⟨by norm_num [SystemState.initial], ?_⟩
    exact le_max_left _ _
  | next raw now hr ih => exact step_energy_bounds raw _ now cfg ih

/-- Counterexample to C2 as stated: under `cfgSmallMax` (max_energy 5) the
initial state is reachable and its hard-coded energy 10 exceeds
`cfg.policy.max_energy`. -/
theorem energy_bound_counterexample :
    Reachable cfgSmallMax (SystemState.initial 0) ∧
    ¬ ((SystemState.initial 0).energy ≤ cfgSmallMax.policy.max_energy) :=
  ⟨Reachable.init 0, by norm_num [SystemState.initial, cfgSmallMax]⟩

/-- Witness for C2 at the reachable initial state under the default
configuration. -/
theorem reachable_energy_bounds_witness :
    Reachable cfgDefault (SystemState.initial 0) ∧
    (0 ≤ (SystemState.initial 0).energy ∧
      (SystemState.initial 0).energy ≤ max 10 cfgDefault.policy.max_energy) :=
  ⟨Reachable.init 0, reachable_energy_bounds cfgDefault _ (Reachable.init 0)⟩

/-- C3 (amended): the lower bound holds — every reachable state has
`pending_dt ≥ 0` — but the claimed upper bound
`pending_dt < max_step_interval + min_step_interval` does not: a performed
step carries `new_pending - min(new_pending, max_step_interval)` forward,
which exceeds the claimed bound whenever a single wall-clock delta does. -/
theorem reachable_pending_nonneg (cfg : ControllerConfig) (s : SystemState)
    (h : Reachable cfg s) : 0 ≤ s.pending_dt := by
  induction h with
  | init t => norm_num [SystemState.initial]
  | next raw now hr ih => exact step_pending_nonneg raw _ now cfg ih

/-- Counterexample to C3 as stated: one ordinary one-second tick from the
initial state under the default configuration is reachable and leaves
`pending_dt = 0.9`, far above the claimed bound
`max_step_interval + min_step_interval = 0.11`. -/
theorem pending_bound_counterexample :
    Reachable cfgDefault afterOneSecondState ∧
    ¬ (afterOneSecondState.pending_dt <
        cfgDefault.time.max_step_interval + cfgDefault.time.min_step_interval) := by
  refine ⟨Reachable.next _ _ (Reachable.init 0), ?_⟩
  norm_num +decide [afterOneSecondState, step, Chronos.sync,
    SystemState.initial, cfgDefault]

/-- Witness for C3 at the reachable initial state under the default
configuration. -/
theorem reachable_pending_nonneg_witness :
    Reachable cfgDefault (SystemState.initial 0) ∧
    0 ≤ (SystemState.initial 0).pending_dt :=
  ⟨Reachable.init 0, reachable_pending_nonneg cfgDefault _ (Reachable.init 0)⟩

/-- C9: Scenario A: from `SystemState.initial 0` under the default
configuration with `smoothing_alpha = 1.0`, one step with raw metrics
(0.5, 0, 0.9) at wall-clock time 1.0 yields mode EMERGENCY, energy 7 and
smoothed repetition 0.9. -/
theorem scenarioA :
    (step { entropy := 1/2, divergence := 0, repetition := 9/10 }
        (SystemState.initial 0) 1 cfgScenarioA).mode =
      OperationalMode.EMERGENCY ∧
    (step { entropy := 1/2, divergence := 0, repetition := 9/10 }
        (SystemState.initial 0) 1 cfgScenarioA).energy = 7 ∧
    (step { entropy := 1/2, divergence := 0, repetition := 9/10 }
        (SystemState.initial 0) 1 cfgScenarioA).s_repetition = 9/10 := by
  norm_num +decide [step, Chronos.sync, SystemState.initial, cfgScenarioA]

/-- C10: a GAP-classified performed step from a FALLBACK state with the
one-shot flag still unset consumes the flag (`reset_used` becomes true)
while the returned energy is 0: the conservative recharge is permanently
spent without any observable energy. -/
theorem fallback_consumes_reset (raw : RawMetrics) (prev : SystemState)
    (now : ℚ) (cfg : ControllerConfig)
    (h1 : prev.mode = OperationalMode.FALLBACK)
    (h2 : prev.reset_used = false)
    (h3 : ¬ (prev.pending_dt +
        (max now prev.last_call_time - prev.last_call_time) <
        cfg.time.min_step_interval))
    (h4 : (Chronos.sync prev.last_call_time (max now prev.last_call_time)).1 =
        TimeState.GAP) :
    (step raw prev now cfg).reset_used = true ∧
    (step raw prev now cfg).energy = 0 := by
  simp only [step]
  rw [if_neg h3, if_pos h1, if_pos (And.intro h4 h2)]
  exact ⟨rfl, rfl⟩

/-- For a performed step from a non-FALLBACK state, the emitted directive
is the per-mode temperature of the resulting mode, read off the closed-enum
`temp_map` of kernel.py lines 219-225. -/
theorem step_directive_of_not_fallback (raw : RawMetrics) (prev : SystemState)
    (now : ℚ) (cfg : ControllerConfig)
    (hb : ¬ (prev.pending_dt +
        (max now prev.last_call_time - prev.last_call_time) <
        cfg.time.min_step_interval))
    (hm : prev.mode ≠ OperationalMode.FALLBACK) :
    (step raw prev now cfg).active_config =
      some { temperature := modeTemp cfg (step raw prev now cfg).mode } := by
  obtain ⟨se, sd, sr, m, e, lct, lt, met, pd, ts, cn, ru, ac, sp⟩ := prev
  cases m with
  | FALLBACK => exact absurd rfl hm
  | STANDARD =>
    simp only [step]
    rw [if_neg hb]
    repeat' split
    all_goals first | rfl | contradiction
  | EMERGENCY =>
    simp only [step]
    rw [if_neg hb]
    repeat' split
    all_goals first | rfl | contradiction
  | COOLDOWN =>
    simp only [step]
    rw [if_neg hb]
    repeat' split
    all_goals first | rfl | contradiction

/-- C4 (amended): for every performed step from a non-FALLBACK state, the
emitted `active_config.temperature` equals the per-mode configured
temperature of the resulting mode (each mode independently configurable,
including `temp_fallback` when the step lands in FALLBACK); for a performed
step from a state already in FALLBACK, the terminal short-circuit instead
emits the module-level constant `_FALLBACK_CONFIG` with the fixed
temperature 0.1, ignoring `cfg.policy.temp_fallback`. -/
theorem directive_selection (raw : RawMetrics) (prev : SystemState)
    (now : ℚ) (cfg : ControllerConfig)
    (hp : (step raw prev now cfg).step_performed = true) :
    (prev.mode ≠ OperationalMode.FALLBACK →
      (step raw prev now cfg).active_config =
        some { temperature := modeTemp cfg (step raw prev now cfg).mode }) ∧
    (prev.mode = OperationalMode.FALLBACK →
      (step raw prev now cfg).active_config = some FALLBACK_CONFIG) := by
  by_cases hb : prev.pending_dt +
      (max now prev.last_call_time - prev.last_call_time) <
      cfg.time.min_step_interval
  · rw [step_buffered_eq raw prev now cfg hb] at hp
    simp at hp
  · constructor
    · intro hm
      exact step_directive_of_not_fallback raw prev now cfg hb hm
    · intro hm
      simp only [step]
      rw [if_neg hb, if_pos hm]

/-- Counterexample to C4 as stated: under `cfgCustomFallbackTemp`
(`temp_fallback = 2`), a performed step from a FALLBACK state emits the
fixed temperature 0.1 rather than the configured `temp_fallback`. -/
theorem directive_selection_counterexample :
    fallbackStepState.step_performed = true ∧
    fallbackStepState.mode = OperationalMode.FALLBACK ∧
    fallbackStepState.active_config =
      some { temperature := 1/10, top_p := none } ∧
    cfgCustomFallbackTemp.policy.temp_fallback = 2 ∧
    fallbackStepState.active_config ≠
      some { temperature := cfgCustomFallbackTemp.policy.temp_fallback,
             top_p := none } := by
  norm_num +decide [fallbackStepState, fallbackProbeState, step, Chronos.sync,
    SystemState.initial, cfgCustomFallbackTemp, FALLBACK_CONFIG]

/-- Witness for C4 at a concrete performed step from the initial state. -/
theorem directive_selection_witness :
    ((step { entropy := 1/2, divergence := 0, repetition := 1/10 }
        (SystemState.initial 0) 1 cfgDefault).step_performed = true) ∧
    (((SystemState.initial 0).mode ≠ OperationalMode.FALLBACK →
      (step { entropy := 1/2, divergence := 0, repetition := 1/10 }
          (SystemState.initial 0) 1 cfgDefault).active_config =
        some { temperature :=
                modeTemp cfgDefault
                  (step { entropy := 1/2, divergence := 0, repetition := 1/10 }
                    (SystemState.initial 0) 1 cfgDefault).mode }) ∧
    ((SystemState.initial 0).mode = OperationalMode.FALLBACK →
      (step { entropy := 1/2, divergence := 0, repetition := 1/10 }
          (SystemState.initial 0) 1 cfgDefault).active_config =
        some FALLBACK_CONFIG)) :=
  ⟨by norm_num +decide [step, Chronos.sync, SystemState.initial, cfgDefault],
    directive_selection _ _ _ _
      (by norm_num +decide [step, Chronos.sync, SystemState.initial, cfgDefault])⟩

/-- C5: Single-use conservative reset: along any call sequence, once
`reset_used` is true it never flips back and no later GAP-classified tick
fires the grant again (`countGrants = 0`), and from a state with
`reset_used = false` the GAP-triggered energy grant fires at most once. -/
theorem single_use_reset (cfg : ControllerConfig) :
    ∀ (l : List StepInput) (s : SystemState),
      (s.reset_used = true →
        (runFrom cfg s l).reset_used = true ∧ countGrants cfg s l = 0) ∧
      (s.reset_used = false → countGrants cfg s l ≤ 1) := by
  intro l
  induction l with
  | nil =>
    intro s
    exact ⟨fun h => ⟨h, rfl⟩, fun _ => Nat.zero_le 1⟩
  | cons i l ih =>
    intro s
    constructor
    · intro h
      have hfire : grantFires cfg s i = false := by
        simp [grantFires, h]
      have hstep : (step i.1 s i.2 cfg).reset_used = true := by
        rw [step_reset_used_of_not_grant cfg s i hfire, h]
      obtain ⟨hrun, hcount⟩ := (ih (step i.1 s i.2 cfg)).1 hstep
      refine ⟨?_, ?_⟩
      · simp only [runFrom]
        exact hrun
      · simp [countGrants, hfire, hcount]
    · intro h
      by_cases hf : grantFires cfg s i = true
      · have hstep : (step i.1 s i.2 cfg).reset_used = true :=
          step_reset_used_of_grant cfg s i hf
        have hcount := ((ih (step i.1 s i.2 cfg)).1 hstep).2
        simp [countGrants, hf, hcount]
      · have hf' : grantFires cfg s i = false := by
          cases hgf : grantFires cfg s i
          · rfl
          · exact absurd hgf hf
        have hstep : (step i.1 s i.2 cfg).reset_used = false := by
          rw [step_reset_used_of_not_grant cfg s i hf', h]
        have hcount := (ih (step i.1 s i.2 cfg)).2 hstep
        simp only [countGrants]
        simp [hf']
        omega

/-- Witness for C5 at a concrete one-call trace from the initial state. -/
theorem single_use_reset_witness :
    (SystemState.initial 0).reset_used = false ∧
    countGrants cfgDefault (SystemState.initial 0)
      [({ entropy := 1/2, divergence := 0, repetition := 0 }, 90000)] ≤ 1 :=
  ⟨rfl, (single_use_reset cfgDefault _ _).2 rfl⟩

/-- Witness for C10: a FALLBACK state stepped after a 25-hour gap. -/
theorem fallback_consumes_reset_witness :
    (fallbackProbeState.mode = OperationalMode.FALLBACK ∧
      fallbackProbeState.reset_used = false ∧
      ¬ (fallbackProbeState.pending_dt +
          (max (90000:ℚ) fallbackProbeState.last_call_time -
            fallbackProbeState.last_call_time) <
          cfgDefault.time.min_step_interval) ∧
      (Chronos.sync fallbackProbeState.last_call_time
          (max (90000:ℚ) fallbackProbeState.last_call_time)).1 =
        TimeState.GAP) ∧
    ((step { entropy := 1/2, divergence := 0, repetition := 1/10 }
        fallbackProbeState 90000 cfgDefault).reset_used = true ∧
      (step { entropy := 1/2, divergence := 0, repetition := 1/10 }
        fallbackProbeState 90000 cfgDefault).energy = 0) :=
  ⟨⟨rfl, rfl,
      by norm_num [fallbackProbeState, SystemState.initial, cfgDefault],
      by norm_num +decide [fallbackProbeState, SystemState.initial, Chronos.sync]⟩,
    fallback_consumes_reset _ _ _ _ rfl rfl
      (by norm_num [fallbackProbeState, SystemState.initial, cfgDefault])
      (by norm_num +decide [fallbackProbeState, SystemState.initial, Chronos.sync])⟩

end Arctl
